import Mathlib

/-!
Shallow embedding of the synchronization and coordination layer of the
collaborative editor client: the collaboration session machine
(`useCollaboration`), the yjs persistence hydration gate
(`useYjsPersistence`), the request correlation guard (`useAsyncGuard`),
and the auto AI trigger scheduler (`useAutoAITrigger`).

Machine integers are modelled as `Int` (JS numbers used as integral
timestamps, codes and counters); byte payloads as `List Nat`; the
external CRDT primitive (yjs) is modelled abstractly, since the spec
treats it as an opaque external collaborator.
-/

/-! ## Model of the external yjs primitive

The CRDT itself is out of scope: the document is the list of applied
updates, and the full-state encoding is an injective function of that
history.  Only the orchestration around these calls is verified. -/

/-- A binary update frame (opaque delta bytes). -/
abbrev Update := List Nat

/-- Abstract replica document: the history of applied updates. -/
abbrev YDoc := List Update

/-- Model of `Y.applyUpdate`: record the delta in the replica. -/
def Yjs.applyUpdate (doc : YDoc) (u : Update) : YDoc := doc ++ [u]

/-- Model of `Y.encodeStateAsUpdate`: the full encoded replica state. -/
def Yjs.encodeStateAsUpdate (doc : YDoc) : Update := doc.flatten

/-! ## Collaboration session machine (`useCollaboration`, reference
variant: the one carrying the `isLocalSynced` gate and the state-send
on open) -/

/-- `type ConnectionStatus = 'disconnected' | 'connected' | 'connecting'` -/
inductive ConnectionStatus where
  | disconnected
  | connected
  | connecting
deriving DecidableEq, Repr

/-- `WebSocket.readyState` values. -/
inductive WsReadyState where
  | connectingState
  | openState
  | closingState
  | closedState
deriving DecidableEq, Repr

/-- The origin tag on a yjs update event.  Binary frames are applied
with the string tag `'websocket'`; every other origin value (editor
binding objects, undo manager, ...) is a non-websocket origin, which
the code treats as local. -/
inductive Origin where
  | websocket
  | client (tag : String)
deriving DecidableEq, Repr

/-- `const RECONNECT_DELAY_MS = 3000` -/
def RECONNECT_DELAY_MS : Nat := 3000

/-- `const CLEAN_CLOSE_CODE = 1000` -/
def CLEAN_CLOSE_CODE : Nat := 1000

/-- `isWebSocketOpen(socket)`: `socket?.readyState === WebSocket.OPEN`. -/
def isWebSocketOpen (socket : Option WsReadyState) : Bool :=
  match socket with
  | some st => st == WsReadyState.openState
  | none => false

/-- State owned by one run of the `useCollaboration` effect.
`reconnectRef` models `reconnectTimeoutRef.current !== null`;
`outstandingTimers` counts live (scheduled, neither fired nor
cleared) reconnect timer callbacks; `scheduledLog` records the delay
of every reconnect ever scheduled; `sent` is the outbound frame log
of `ws.send`, oldest first. -/
structure CollabState where
  status : ConnectionStatus
  socket : Option WsReadyState
  reconnectRef : Bool
  outstandingTimers : Nat
  scheduledLog : List Nat
  doc : YDoc
  hasReceivedFirstUpdate : Bool
  isServerSynced : Bool
  sent : List Update
deriving DecidableEq, Repr

/-- The state at the start of one effect run. -/
def CollabState.initial (doc0 : YDoc) : CollabState :=
  { status := ConnectionStatus.disconnected
    socket := none
    reconnectRef := false
    outstandingTimers := 0
    scheduledLog := []
    doc := doc0
    hasReceivedFirstUpdate := false
    isServerSynced := false
    sent := [] }

/-- `handleYjsUpdate(update, origin)`: returns the frame sent, if any.
Source: `if (ws && isWebSocketOpen(ws) && origin !== 'websocket')
ws.send(update)`. -/
def handleYjsUpdate (socket : Option WsReadyState) (update : Update)
    (origin : Origin) : Option Update :=
  if socket.isSome && isWebSocketOpen socket && origin != Origin.websocket
  then some update else none

/-- `clearReconnectTimeout()`: cancels the referenced timer and nulls
the ref. -/
def clearReconnectTimeout (s : CollabState) : CollabState :=
  if s.reconnectRef then
    { s with reconnectRef := false, outstandingTimers := s.outstandingTimers - 1 }
  else s

/-- `scheduleReconnect(connect)`: starts one timer with the fixed
delay and stores it in the ref. -/
def scheduleReconnect (s : CollabState) : CollabState :=
  { s with reconnectRef := true
           outstandingTimers := s.outstandingTimers + 1
           scheduledLog := s.scheduledLog ++ [RECONNECT_DELAY_MS] }

/-- `connect()`: transitions to `connecting` and opens a fresh
transport (handlers are bound to it). -/
def connect (s : CollabState) : CollabState :=
  { s with status := ConnectionStatus.connecting
           socket := some WsReadyState.connectingState }

/-- `ws.onopen`: set status `connected`, clear any pending reconnect
timer, then send the full encoded replica state. -/
def wsOnOpen (s : CollabState) : CollabState :=
  let s1 := { s with status := ConnectionStatus.connected
                     socket := some WsReadyState.openState }
  let s2 := clearReconnectTimeout s1
  { s2 with sent := s2.sent ++ [Yjs.encodeStateAsUpdate s2.doc] }

/-- `ws.onclose`: set status `disconnected`; if the close code is not
the clean-close code and no reconnect is already scheduled, schedule
exactly one reconnect. -/
def wsOnClose (s : CollabState) (code : Nat) : CollabState :=
  let s1 := { s with status := ConnectionStatus.disconnected
                     socket := some WsReadyState.closedState }
  if code != CLEAN_CLOSE_CODE && !s1.reconnectRef
  then scheduleReconnect s1 else s1

/-- The body of a scheduled reconnect timer: null the ref, then
`connect()`.  A timer that was cleared never fires. -/
def reconnectTimerFire (s : CollabState) : CollabState :=
  if s.reconnectRef then
    connect { s with reconnectRef := false
                     outstandingTimers := s.outstandingTimers - 1 }
  else s

/-- `handleBinaryMessage(data)`: apply the delta to the replica with
origin `'websocket'`.  Applying triggers the document's update event,
observed synchronously by `handleYjsUpdate` with that origin; on the
first binary frame, mark server-synced. -/
def handleBinaryMessage (s : CollabState) (data : Update) : CollabState :=
  let doc2 := Yjs.applyUpdate s.doc data
  let sent2 := match handleYjsUpdate s.socket data Origin.websocket with
    | some frame => s.sent ++ [frame]
    | none => s.sent
  let s2 := { s with doc := doc2, sent := sent2 }
  if !s.hasReceivedFirstUpdate then
    { s2 with hasReceivedFirstUpdate := true, isServerSynced := true }
  else s2

/-- Events driving one collaboration session. -/
inductive SessionEvent where
  | openEv
  | closeEv (code : Nat)
  | timerFireEv
  | yjsUpdateEv (u : Update) (origin : Origin)
  | binaryMessageEv (u : Update)
deriving DecidableEq, Repr

/-- A local yjs update event observed by the change publisher. -/
def applyYjsUpdateEvent (s : CollabState) (u : Update) (o : Origin) :
    CollabState :=
  match handleYjsUpdate s.socket u o with
  | some frame => { s with sent := s.sent ++ [frame] }
  | none => s

/-- One step of the session machine. -/
def sessionStep (s : CollabState) : SessionEvent → CollabState
  | SessionEvent.openEv => wsOnOpen s
  | SessionEvent.closeEv code => wsOnClose s code
  | SessionEvent.timerFireEv => reconnectTimerFire s
  | SessionEvent.yjsUpdateEv u o => applyYjsUpdateEvent s u o
  | SessionEvent.binaryMessageEv u => handleBinaryMessage s u

/-- Run the session machine over a list of events. -/
def runSession (s : CollabState) : List SessionEvent → CollabState
  | [] => s
  | e :: evs => runSession (sessionStep s e) evs

/-- An event is remote-origin: either a binary frame from the wire or
the update event its application emits (origin `'websocket'`). -/
def remoteOnlyEvent : SessionEvent → Prop
  | SessionEvent.yjsUpdateEv _ o => o = Origin.websocket
  | SessionEvent.binaryMessageEv _ => True
  | _ => False

/-! ## Hydration gate (`useCollaboration` effect + `useYjsPersistence`)

The effect body starts with `if (!isLocalSynced) return`; otherwise it
subscribes and calls `connect()` once.  React re-runs the effect on
mount and whenever the dependency value changes; `useYjsPersistence`
flips `isLocalSynced` from `false` to `true` exactly once (a one-time
`once('synced')` signal), so the relevant render histories are a block
of `false` readings followed by a block of `true` readings. -/

/-- Number of `connect()` calls made by one run of the
`useCollaboration` effect, given the `isLocalSynced` dependency. -/
def collaborationEffectConnects (isLocalSynced : Bool) : Nat :=
  if !isLocalSynced then 0 else 1

/-- Dependency values at the effect re-runs following a first run that
saw `prev`: the effect re-runs exactly when the dependency changed. -/
def effectRerunsFrom (prev : Bool) : List Bool → List Bool
  | [] => []
  | x :: xs => if x == prev then effectRerunsFrom prev xs
               else x :: effectRerunsFrom x xs

/-- Dependency values at every run of the effect over a render
history: the mount run plus one run per dependency change. -/
def effectRunList : List Bool → List Bool
  | [] => []
  | x :: xs => x :: effectRerunsFrom x xs

/-- Total `connect()` calls issued by the effect over a render
history of `isLocalSynced` readings. -/
def hydrationConnects (history : List Bool) : Nat :=
  ((effectRunList history).map collaborationEffectConnects).sum

/-! ## Request correlation guard (`useAsyncGuard`) -/

/-- The guard's state: `lastIdRef.current`, initially `0`. -/
structure GuardState where
  lastId : Int
deriving DecidableEq, Repr

/-- `nextId()`: `lastIdRef.current = Date.now(); return lastIdRef.current`.
The ambient clock reading is passed explicitly. -/
def nextId (_s : GuardState) (now : Int) : Int × GuardState :=
  (now, { lastId := now })

/-- `isLatest(id)`: `id === lastIdRef.current`. -/
def isLatest (s : GuardState) (id : Int) : Bool := id == s.lastId

/-- `cancel()`: `lastIdRef.current = 0`. -/
def cancelGuard (_s : GuardState) : GuardState := { lastId := 0 }

/-- `currentId()`: `lastIdRef.current`. -/
def currentId (s : GuardState) : Int := s.lastId

/-- The entry of `run(action)`: `const executionId = ++lastIdRef.current`. -/
def runStart (s : GuardState) : Int × GuardState :=
  (s.lastId + 1, { lastId := s.lastId + 1 })

/-- Terminal outcome of the awaited action inside `run`. -/
inductive ActionOutcome (T : Type) where
  | ok (value : T)
  | err (msg : String)
deriving DecidableEq, Repr

/-- The try/catch around the awaited action in `run`: on success,
return the value; on a thrown error, rethrow when the execution id is
still current (`!isStale()`), otherwise resolve to `undefined`. -/
def runCatch (T : Type) (executionId lastIdAtCompletion : Int)
    (outcome : ActionOutcome T) : Except String (Option T) :=
  match outcome with
  | ActionOutcome.ok v => Except.ok (some v)
  | ActionOutcome.err m =>
      if executionId != lastIdAtCompletion then Except.ok none
      else Except.error m

/-- Repeated `nextId()` calls at the given clock readings; returns the
ids in issuance order and the final guard state. -/
def runNextIds (s : GuardState) : List Int → List Int × GuardState
  | [] => ([], s)
  | t :: ts =>
    let r := nextId s t
    let rest := runNextIds r.2 ts
    (r.1 :: rest.1, rest.2)

/-- An operation on the guard that may issue an id. -/
inductive GuardOp where
  | next (now : Int)
  | runOp
  | cancelOp
deriving DecidableEq, Repr

/-- One guard operation: the id it issues (if any) and the new state. -/
def guardStep (s : GuardState) : GuardOp → Option Int × GuardState
  | GuardOp.next t => let r := nextId s t; (some r.1, r.2)
  | GuardOp.runOp => let r := runStart s; (some r.1, r.2)
  | GuardOp.cancelOp => (none, cancelGuard s)

/-- Run a sequence of guard operations from a state, collecting every
issued id in order. -/
def guardIssued (s : GuardState) : List GuardOp → List Int × GuardState
  | [] => ([], s)
  | op :: ops =>
    let r := guardStep s op
    let rest := guardIssued r.2 ops
    (r.1.toList ++ rest.1, rest.2)

/-! ## Auto AI trigger scheduler (`useAutoAITrigger`, reference
variant: the one carrying the cooldown check, the first-trigger
bypass and the punctuation heuristic) -/

/-- `TriggerState`: `{ lastTriggerTime, lastContentLength, lastContent }`,
initially `{ 0, 0, '' }`. -/
structure TriggerState where
  lastTriggerTime : Int
  lastContentLength : Int
  lastContent : String
deriving DecidableEq, Repr

/-- Model of the JS builtin `String.prototype.trim`: drop whitespace
from both ends. -/
def jsTrim (s : String) : String :=
  String.mk
    (((s.data.dropWhile Char.isWhitespace).reverse.dropWhile
        Char.isWhitespace).reverse)

/-- `/[.!?。！？\n]$/.test(trimmed)`: the last character is in the
terminal punctuation set. -/
def endsWithTerminalPunctuation (s : String) : Bool :=
  match s.data.getLast? with
  | some c => c ∈ ['.', '!', '?', '。', '！', '？', '\n']
  | none => false

/-- `shouldTriggerAI(content, charCount)`, evaluated at clock reading
`now` (`Date.now()` at entry). -/
def shouldTriggerAI (cooldownMs minCharacters minChangeThreshold : Int)
    (state : TriggerState) (now : Int) (content : String)
    (charCount : Int) : Bool :=
  if state.lastTriggerTime > 0 && now - state.lastTriggerTime < cooldownMs
  then false
  else if charCount < minCharacters then false
  else
    let changeAmount := charCount - state.lastContentLength
    let isFirstTrigger := state.lastTriggerTime == 0
    if isFirstTrigger then true
    else if changeAmount < minChangeThreshold then false
    else decide (changeAmount ≥ minChangeThreshold)
         || endsWithTerminalPunctuation (jsTrim content)

/-- The body of the debounce timer: evaluate the predicate at clock
reading `now`; on a pass, record the snapshot with `lastTriggerTime`
taken from a second clock reading `fireTime`, and report a fire. -/
def debounceExpiry (cooldownMs minCharacters minChangeThreshold : Int)
    (st : TriggerState) (now fireTime : Int) (content : String)
    (charCount : Int) : TriggerState × Bool :=
  if shouldTriggerAI cooldownMs minCharacters minChangeThreshold st now
      content charCount
  then ({ lastTriggerTime := fireTime
          lastContentLength := charCount
          lastContent := content }, true)
  else (st, false)

/-- Scheduler state: the trigger snapshot state, whether the single
debounce timer is pending, and the number of trigger callback
invocations so far. -/
structure SchedulerState where
  trig : TriggerState
  timerPending : Bool
  fires : Nat
deriving DecidableEq, Repr

/-- The scheduler's state before any scheduling. -/
def initialSchedulerState : SchedulerState :=
  { trig := { lastTriggerTime := 0, lastContentLength := 0, lastContent := "" }
    timerPending := false
    fires := 0 }

/-- `scheduleAITrigger()`: no-op without an editor or when disabled;
otherwise clear any pending timers and start the single debounce
timer. -/
def scheduleAITrigger (hasEditor enabled : Bool) (s : SchedulerState) :
    SchedulerState :=
  if !hasEditor || !enabled then s
  else { s with timerPending := true }

/-- Expiry of the debounce timer started by `scheduleAITrigger`: a
cleared (non-pending) timer never runs; otherwise evaluate the
predicate and fire the callback on a pass. -/
def debounceTimerFire (cooldownMs minCharacters minChangeThreshold : Int)
    (s : SchedulerState) (now fireTime : Int) (content : String)
    (charCount : Int) : SchedulerState :=
  if !s.timerPending then s
  else
    let r := debounceExpiry cooldownMs minCharacters minChangeThreshold
      s.trig now fireTime content charCount
    { trig := r.1
      timerPending := false
      fires := s.fires + (if r.2 then 1 else 0) }

/-- `cancelScheduled()` / `clearTimers()`: drop the pending timer. -/
def cancelScheduled (s : SchedulerState) : SchedulerState :=
  { s with timerPending := false }

/-! ## Helper lemmas -/

theorem handleYjsUpdate_websocket_eq_none (socket : Option WsReadyState)
    (u : Update) : handleYjsUpdate socket u Origin.websocket = none := by
  simp [handleYjsUpdate]

theorem remoteOnly_step_sent (s : CollabState) (e : SessionEvent)
    (h : remoteOnlyEvent e) : (sessionStep s e).sent = s.sent := by
  cases e with
  | openEv => exact absurd h (by simp [remoteOnlyEvent])
  | closeEv code => exact absurd h (by simp [remoteOnlyEvent])
  | timerFireEv => exact absurd h (by simp [remoteOnlyEvent])
  | yjsUpdateEv u o =>
      have ho : o = Origin.websocket := h
      subst ho
      simp [sessionStep, applyYjsUpdateEvent, handleYjsUpdate_websocket_eq_none]
  | binaryMessageEv u =>
      simp only [sessionStep, handleBinaryMessage,
        handleYjsUpdate_websocket_eq_none]
      split <;> rfl

theorem remoteOnly_runSession_sent (evs : List SessionEvent)
    (s : CollabState) (h : ∀ e ∈ evs, remoteOnlyEvent e) :
    (runSession s evs).sent = s.sent := by
  induction evs generalizing s with
  | nil => rfl
  | cons e evs ih =>
      rw [runSession, ih (sessionStep s e) (fun x hx => h x (by simp [hx])),
        remoteOnly_step_sent s e (h e (by simp))]

/-- The number of outstanding reconnect timers equals one exactly when
the reconnect ref is set: the bookkeeping invariant of the reconnect
policy. -/
def timerInv (s : CollabState) : Prop :=
  s.outstandingTimers = if s.reconnectRef then 1 else 0

theorem timerInv_step (s : CollabState) (e : SessionEvent)
    (h : timerInv s) : timerInv (sessionStep s e) := by
  unfold timerInv at h ⊢
  cases e with
  | openEv =>
      simp only [sessionStep, wsOnOpen, clearReconnectTimeout]
      split <;> simp_all
  | closeEv code =>
      simp only [sessionStep, wsOnClose]
      split <;> simp_all [scheduleReconnect]
  | timerFireEv =>
      simp only [sessionStep, reconnectTimerFire]
      split <;> simp_all [connect]
  | yjsUpdateEv u o =>
      rcases hq : handleYjsUpdate s.socket u o with _ | fr <;>
        simp only [sessionStep, applyYjsUpdateEvent, hq] <;> exact h
  | binaryMessageEv u =>
      simp only [sessionStep, handleBinaryMessage,
        handleYjsUpdate_websocket_eq_none]
      split <;> simp_all

theorem timerInv_runSession (evs : List SessionEvent) (s : CollabState)
    (h : timerInv s) : timerInv (runSession s evs) := by
  induction evs generalizing s with
  | nil => exact h
  | cons e evs ih => exact ih (sessionStep s e) (timerInv_step s e h)

/-! ## Claim theorems -/

/-- Claim C1: for every sequence of document updates observed by the
change publisher, an update is serialized and sent only when its
origin is not the `'websocket'` tag (the tag attached when a binary
frame is applied to the replica); every remote-origin update produces
zero outbound sends, for every transport state. -/
theorem no_echo_invariant (socket : Option WsReadyState) (u : Update)
    (s : CollabState) (evs : List SessionEvent)
    (h : ∀ e ∈ evs, remoteOnlyEvent e) :
    handleYjsUpdate socket u Origin.websocket = none ∧
    (∀ o frame, handleYjsUpdate socket u o = some frame →
        o ≠ Origin.websocket ∧ frame = u) ∧
    (runSession s evs).sent = s.sent := by
  refine ⟨handleYjsUpdate_websocket_eq_none socket u, ?_,
    remoteOnly_runSession_sent evs s h⟩
  intro o frame hf
  unfold handleYjsUpdate at hf
  split at hf
  · rename_i hc
    simp only [Bool.and_eq_true, bne_iff_ne] at hc
    exact ⟨hc.2, (Option.some.injEq u frame ▸ hf).symm ▸ rfl⟩
  · exact absurd hf (by simp)

theorem no_echo_invariant_witness :
    handleYjsUpdate (some WsReadyState.openState) [7] Origin.websocket
      = none ∧
    (∀ o frame,
        handleYjsUpdate (some WsReadyState.openState) [7] o = some frame →
        o ≠ Origin.websocket ∧ frame = [7]) ∧
    (runSession (CollabState.initial [])
        [SessionEvent.binaryMessageEv [1],
         SessionEvent.yjsUpdateEv [2] Origin.websocket]).sent
      = (CollabState.initial []).sent :=
  no_echo_invariant (some WsReadyState.openState) [7] (CollabState.initial [])
    [SessionEvent.binaryMessageEv [1],
     SessionEvent.yjsUpdateEv [2] Origin.websocket]
    (by intro e he
        simp only [List.mem_cons, List.not_mem_nil, or_false] at he
        rcases he with rfl | rfl
        · trivial
        · rfl)

/-- Claim C2: a close with the normal-closure code 1000 never
schedules a reconnect; a close with any other code schedules exactly
one reconnect with the fixed 3000 ms delay when no reconnect timer is
pending, and schedules nothing when one is pending; over every event
sequence, at most one reconnect timer is outstanding at any time. -/
theorem reconnect_singularity (s : CollabState) (code : Nat)
    (evs : List SessionEvent) (hinv : timerInv s) :
    (wsOnClose s CLEAN_CLOSE_CODE).scheduledLog = s.scheduledLog ∧
    (code ≠ CLEAN_CLOSE_CODE → s.reconnectRef = false →
        (wsOnClose s code).scheduledLog
          = s.scheduledLog ++ [RECONNECT_DELAY_MS] ∧
        (wsOnClose s code).outstandingTimers = 1) ∧
    (s.reconnectRef = true →
        (wsOnClose s code).scheduledLog = s.scheduledLog) ∧
    (runSession s evs).outstandingTimers ≤ 1 := by
  unfold timerInv at hinv
  refine ⟨?_, ?_, ?_, ?_⟩
  · simp [wsOnClose]
  · intro hcode href
    rw [wsOnClose]
    simp only [href, hinv, Bool.not_false, Bool.and_true, scheduleReconnect]
    simp [bne_iff_ne, hcode]
  · intro href
    simp [wsOnClose, href]
  · have h2 := timerInv_runSession evs s hinv
    unfold timerInv at h2
    rw [h2]
    split <;> omega

theorem reconnect_singularity_witness :
    timerInv (CollabState.initial []) ∧
    ((wsOnClose (CollabState.initial []) CLEAN_CLOSE_CODE).scheduledLog
        = (CollabState.initial []).scheduledLog ∧
      (1006 ≠ CLEAN_CLOSE_CODE → (CollabState.initial []).reconnectRef = false →
          (wsOnClose (CollabState.initial []) 1006).scheduledLog
            = (CollabState.initial []).scheduledLog ++ [RECONNECT_DELAY_MS] ∧
          (wsOnClose (CollabState.initial []) 1006).outstandingTimers = 1) ∧
      ((CollabState.initial []).reconnectRef = true →
          (wsOnClose (CollabState.initial []) 1006).scheduledLog
            = (CollabState.initial []).scheduledLog) ∧
      (runSession (CollabState.initial [])
          [SessionEvent.closeEv 1006, SessionEvent.closeEv 1006,
           SessionEvent.closeEv 1015]).outstandingTimers ≤ 1) :=
  ⟨by unfold timerInv; decide,
   reconnect_singularity (CollabState.initial []) 1006
     [SessionEvent.closeEv 1006, SessionEvent.closeEv 1006,
      SessionEvent.closeEv 1015]
     (by unfold timerInv; decide)⟩

theorem effectRerunsFrom_replicate_append (b : Bool) (n : Nat)
    (rest : List Bool) :
    effectRerunsFrom b (List.replicate n b ++ rest)
      = effectRerunsFrom b rest := by
  induction n with
  | zero => rfl
  | succ n ih => simpa [List.replicate_succ, effectRerunsFrom] using ih

theorem effectRerunsFrom_replicate (b : Bool) (n : Nat) :
    effectRerunsFrom b (List.replicate n b) = [] := by
  have h := effectRerunsFrom_replicate_append b n []
  simpa using h

/-- Claim C4: while the hydration signal has not fired, the effect
issues no `connect()`; over a render history where the one-time
signal fires (any number of `false` readings followed by `true`
readings), `connect()` is issued exactly once. -/
theorem hydration_gates_connect (k m : Nat) :
    hydrationConnects (List.replicate k false) = 0 ∧
    hydrationConnects
      (List.replicate k false ++ List.replicate (m + 1) true) = 1 := by
  constructor
  · cases k with
    | zero => rfl
    | succ k =>
        simp [hydrationConnects, effectRunList, List.replicate_succ,
          effectRerunsFrom_replicate, collaborationEffectConnects]
  · cases k with
    | zero =>
        simp [hydrationConnects, effectRunList, List.replicate_succ,
          effectRerunsFrom_replicate, collaborationEffectConnects]
    | succ k =>
        simp [hydrationConnects, effectRunList, List.replicate_succ,
          effectRerunsFrom_replicate_append, effectRerunsFrom,
          effectRerunsFrom_replicate, collaborationEffectConnects]

/-- Claim C5: on transport-open the session transitions to
`connected`, clears any pending reconnect timer, and sends the full
encoded replica state as its first outbound frame. -/
theorem on_open_sends_full_state (s : CollabState) (hinv : timerInv s)
    (hsent : s.sent = []) :
    (wsOnOpen s).status = ConnectionStatus.connected ∧
    (wsOnOpen s).reconnectRef = false ∧
    (wsOnOpen s).outstandingTimers = 0 ∧
    (wsOnOpen s).sent = [Yjs.encodeStateAsUpdate s.doc] ∧
    (wsOnOpen s).sent.head? = some (Yjs.encodeStateAsUpdate s.doc) := by
  unfold timerInv at hinv
  by_cases href : s.reconnectRef <;>
    simp_all [wsOnOpen, clearReconnectTimeout]

theorem on_open_sends_full_state_witness :
    timerInv (CollabState.initial [[1], [2]]) ∧
    ((wsOnOpen (CollabState.initial [[1], [2]])).status
        = ConnectionStatus.connected ∧
      (wsOnOpen (CollabState.initial [[1], [2]])).reconnectRef = false ∧
      (wsOnOpen (CollabState.initial [[1], [2]])).outstandingTimers = 0 ∧
      (wsOnOpen (CollabState.initial [[1], [2]])).sent
        = [Yjs.encodeStateAsUpdate (CollabState.initial [[1], [2]]).doc] ∧
      (wsOnOpen (CollabState.initial [[1], [2]])).sent.head?
        = some (Yjs.encodeStateAsUpdate (CollabState.initial [[1], [2]]).doc)) :=
  ⟨by unfold timerInv; decide,
   on_open_sends_full_state (CollabState.initial [[1], [2]])
     (by unfold timerInv; decide) rfl⟩

theorem runNextIds_fst (ts : List Int) (s : GuardState) :
    (runNextIds s ts).1 = ts := by
  induction ts generalizing s with
  | nil => rfl
  | cons t ts ih => simp [runNextIds, nextId, ih]

theorem runNextIds_lastId (ts : List Int) (s : GuardState) (lid : Int)
    (h : ts.getLast? = some lid) : (runNextIds s ts).2.lastId = lid := by
  induction ts generalizing s with
  | nil => cases h
  | cons t ts ih =>
      cases ts with
      | nil =>
          simp only [List.getLast?_singleton, Option.some.injEq] at h
          simp [runNextIds, nextId, h]
      | cons t2 ts2 =>
          rw [List.getLast?_cons_cons] at h
          simpa [runNextIds, nextId] using ih { lastId := t } h

/-- Claim C3 counterexample: `nextId()` returns the clock reading, so
two calls in the same millisecond return equal ids — the second is
not strictly greater than the first, and `isLatest` still accepts the
first returned id afterwards. -/
theorem nextId_strictness_counterexample :
    ¬ List.Pairwise (· < ·) (runNextIds { lastId := 0 } [5, 5]).1 ∧
    isLatest (runNextIds { lastId := 0 } [5, 5]).2 5 = true := by
  constructor
  · decide
  · decide

/-- Claim C3 (amended): provided successive clock readings strictly
increase between `nextId()` calls, each returned id is strictly
greater than every previously returned one, and afterwards `isLatest`
holds for the most recently returned id and fails for every id
returned before the last. -/
theorem nextId_monotone_under_strict_clock (s0 : GuardState)
    (ts : List Int) (hchain : List.Chain' (· < ·) ts) :
    List.Pairwise (· < ·) (runNextIds s0 ts).1 ∧
    ∀ lid, (runNextIds s0 ts).1.getLast? = some lid →
      isLatest (runNextIds s0 ts).2 lid = true ∧
      ∀ i ∈ (runNextIds s0 ts).1.dropLast,
        isLatest (runNextIds s0 ts).2 i = false := by
  rw [runNextIds_fst]
  have hpw : List.Pairwise (· < ·) ts := List.chain'_iff_pairwise.mp hchain
  refine ⟨hpw, ?_⟩
  intro lid hlast
  have hlid : (runNextIds s0 ts).2.lastId = lid := runNextIds_lastId ts s0 lid hlast
  constructor
  · simp [isLatest, hlid]
  · intro i hi
    have hsplit : ts.dropLast ++ [lid] = ts :=
      List.dropLast_append_getLast? lid hlast
    have hpw2 : List.Pairwise (· < ·) (ts.dropLast ++ [lid]) := by
      rw [hsplit]; exact hpw
    have hlt : i < lid := by
      rcases List.pairwise_append.mp hpw2 with ⟨_, _, hcross⟩
      exact hcross i hi lid (by simp)
    simp [isLatest, hlid]
    exact Int.ne_of_lt hlt

theorem nextId_monotone_witness :
    List.Chain' (· < ·) ([1, 2, 3] : List Int) ∧
    List.Pairwise (· < ·) (runNextIds { lastId := 0 } [1, 2, 3]).1 ∧
    isLatest (runNextIds { lastId := 0 } [1, 2, 3]).2 3 = true ∧
    isLatest (runNextIds { lastId := 0 } [1, 2, 3]).2 1 = false := by
  have hch : List.Chain' (· < ·) ([1, 2, 3] : List Int) := by
    norm_num [List.chain'_cons]
  have h := nextId_monotone_under_strict_clock { lastId := 0 } [1, 2, 3] hch
  refine ⟨hch, h.1, ?_, ?_⟩
  · exact (h.2 3 (by decide)).1
  · exact (h.2 3 (by decide)).2 1 (by decide)

theorem shouldTriggerAI_cooldown_active
    (cooldownMs minCharacters minChangeThreshold : Int)
    (st : TriggerState) (now : Int) (content : String) (charCount : Int)
    (h1 : 0 < st.lastTriggerTime)
    (h2 : now - st.lastTriggerTime < cooldownMs) :
    shouldTriggerAI cooldownMs minCharacters minChangeThreshold st now
      content charCount = false := by
  simp [shouldTriggerAI, h1, h2]

/-- Claim C6: with `cooldownMs = 30000`, two debounce-expiry predicate
evaluations less than 30000 ms apart never both fire: after a first
fire records its timestamp, the predicate rejects any evaluation
occurring within the cooldown window. -/
theorem auto_trigger_cooldown (minCharacters minChangeThreshold : Int)
    (st : TriggerState) (now1 fire1 now2 fire2 : Int) (c1 c2 : String)
    (cc1 cc2 : Int) (hpos : 0 < now1) (hf : now1 ≤ fire1)
    (hord : fire1 ≤ now2) (hlt : now2 - now1 < 30000) :
    ¬ ((debounceExpiry 30000 minCharacters minChangeThreshold st now1
          fire1 c1 cc1).2 = true ∧
       (debounceExpiry 30000 minCharacters minChangeThreshold
          (debounceExpiry 30000 minCharacters minChangeThreshold st now1
            fire1 c1 cc1).1 now2 fire2 c2 cc2).2 = true) := by
  rintro ⟨hfire1, hfire2⟩
  by_cases hs : shouldTriggerAI 30000 minCharacters minChangeThreshold st
    now1 c1 cc1
  · have hst1 : (debounceExpiry 30000 minCharacters minChangeThreshold st
        now1 fire1 c1 cc1).1
        = { lastTriggerTime := fire1, lastContentLength := cc1,
            lastContent := c1 } := by
      simp [debounceExpiry, hs]
    rw [hst1] at hfire2
    have hreject := shouldTriggerAI_cooldown_active 30000 minCharacters
      minChangeThreshold
      { lastTriggerTime := fire1, lastContentLength := cc1,
        lastContent := c1 }
      now2 c2 cc2 (by simpa using lt_of_lt_of_le hpos hf)
      (by simp only; omega)
    simp [debounceExpiry, hreject] at hfire2
  · simp [debounceExpiry, hs] at hfire1

theorem auto_trigger_cooldown_witness :
    (0 : Int) < 100 ∧ (100 : Int) ≤ 100 ∧ (100 : Int) ≤ 20000 ∧
    (20000 : Int) - 100 < 30000 ∧
    ¬ ((debounceExpiry 30000 3 50
          { lastTriggerTime := 0, lastContentLength := 0, lastContent := "" }
          100 100 "hello world, this is enough text" 200).2 = true ∧
       (debounceExpiry 30000 3 50
          (debounceExpiry 30000 3 50
            { lastTriggerTime := 0, lastContentLength := 0, lastContent := "" }
            100 100 "hello world, this is enough text" 200).1
          20000 20000 "hello world, this is even more text" 400).2 = true) :=
  ⟨by norm_num, by norm_num, by norm_num, by norm_num,
   auto_trigger_cooldown 3 50
     { lastTriggerTime := 0, lastContentLength := 0, lastContent := "" }
     100 100 20000 20000 "hello world, this is enough text"
     "hello world, this is even more text" 200 400
     (by norm_num) (by norm_num) (by norm_num) (by norm_num)⟩

/-- Claim C7: with no prior fire (`lastTriggerTime = 0`) the predicate
bypasses the change-magnitude check: content reaching 15 characters
with `minCharacters = 10` passes even though the change (15) is below
`minChangeThreshold`, and the scheduled debounce timer fires the
callback exactly once. -/
theorem first_trigger_bypass (minChangeThreshold : Int)
    (content c2 : String) (cc now fireTime now2 fireTime2 cc2 : Int)
    (hcc : cc = 15) (hthr : 15 < minChangeThreshold) :
    shouldTriggerAI 30000 10 minChangeThreshold
      { lastTriggerTime := 0, lastContentLength := 0, lastContent := "" }
      now content cc = true ∧
    (debounceTimerFire 30000 10 minChangeThreshold
        (scheduleAITrigger true true initialSchedulerState)
        now fireTime content cc).fires = 1 ∧
    (debounceTimerFire 30000 10 minChangeThreshold
        (debounceTimerFire 30000 10 minChangeThreshold
          (scheduleAITrigger true true initialSchedulerState)
          now fireTime content cc)
        now2 fireTime2 c2 cc2).fires = 1 := by
  subst hcc
  have hpred : shouldTriggerAI 30000 10 minChangeThreshold
      { lastTriggerTime := 0, lastContentLength := 0, lastContent := "" }
      now content 15 = true := by
    norm_num [shouldTriggerAI]
  refine ⟨hpred, ?_, ?_⟩ <;>
    simp [debounceTimerFire, scheduleAITrigger, initialSchedulerState,
      debounceExpiry, hpred]

theorem first_trigger_bypass_witness :
    (15 : Int) = 15 ∧ (15 : Int) < 50 ∧
    shouldTriggerAI 30000 10 50
      { lastTriggerTime := 0, lastContentLength := 0, lastContent := "" }
      4000 "abcdefghijklmno" 15 = true ∧
    (debounceTimerFire 30000 10 50
        (scheduleAITrigger true true initialSchedulerState)
        4000 4001 "abcdefghijklmno" 15).fires = 1 ∧
    (debounceTimerFire 30000 10 50
        (debounceTimerFire 30000 10 50
          (scheduleAITrigger true true initialSchedulerState)
          4000 4001 "abcdefghijklmno" 15)
        9000 9001 "abcdefghijklmno" 15).fires = 1 :=
  ⟨rfl, by norm_num,
   first_trigger_bypass 50 "abcdefghijklmno" "abcdefghijklmno"
     15 4000 4001 9000 9001 15 rfl (by norm_num)⟩

/-- Claim C8 (refuted by the code): `shouldTriggerAI` returns `false`
at a below-threshold change even when the trimmed content ends in
terminal punctuation — the guard `changeAmount < minChangeThreshold`
returns before the `endsWithPunctuation` disjunction is reached, so
the punctuation escape is unreachable.  Concrete run: past the first
trigger (`lastTriggerTime = 1000`), cooldown elapsed, change 10 below
threshold 50, content ending in a period. -/
theorem punctuation_heuristic_unreachable :
    endsWithTerminalPunctuation
      (jsTrim "It ends with a period.") = true ∧
    shouldTriggerAI 30000 3 50
      { lastTriggerTime := 1000, lastContentLength := 100,
        lastContent := "" }
      40000 "It ends with a period." 110 = false := by
  constructor
  · rfl
  · rfl

/-- Claim C9: when the awaited action throws after its execution id
has been superseded (`isStale()` true), `run` resolves to `undefined`
and the error does not propagate; when it throws while the id is
still current, `run` rethrows that same error. -/
theorem stale_error_swallowed (T : Type) (executionId current : Int)
    (m : String) :
    (executionId ≠ current →
        runCatch T executionId current (ActionOutcome.err m)
          = Except.ok none) ∧
    (executionId = current →
        runCatch T executionId current (ActionOutcome.err m)
          = Except.error m) := by
  constructor
  · intro hne; simp [runCatch, hne]
  · intro heq; simp [runCatch, heq]

theorem stale_error_swallowed_witness :
    runCatch Nat 1 2 (ActionOutcome.err "boom") = Except.ok none ∧
    runCatch Nat 3 3 (ActionOutcome.err "boom") = Except.error "boom" :=
  ⟨(stale_error_swallowed Nat 1 2 "boom").1 (by decide),
   (stale_error_swallowed Nat 3 3 "boom").2 rfl⟩

theorem guardIssued_pos (ops : List GuardOp) (s : GuardState)
    (hs : 0 ≤ s.lastId)
    (hpos : ∀ t, GuardOp.next t ∈ ops → 0 < t) :
    (∀ i ∈ (guardIssued s ops).1, 0 < i) ∧
    0 ≤ (guardIssued s ops).2.lastId := by
  induction ops generalizing s with
  | nil => exact ⟨by simp [guardIssued], by simpa [guardIssued] using hs⟩
  | cons op ops ih =>
      cases op with
      | next t =>
          have ht : 0 < t := hpos t (by simp)
          have hrest := ih { lastId := t } (le_of_lt ht)
            (fun u hu => hpos u (by simp [hu]))
          refine ⟨?_, by simpa [guardIssued, guardStep, nextId] using hrest.2⟩
          intro i hi
          simp only [guardIssued, guardStep, nextId, Option.toList_some,
            List.cons_append, List.nil_append, List.mem_cons] at hi
          rcases hi with rfl | hi
          · exact ht
          · exact hrest.1 i hi
      | runOp =>
          have hrest := ih { lastId := s.lastId + 1 }
            (by show (0 : Int) ≤ s.lastId + 1; omega)
            (fun u hu => hpos u (by simp [hu]))
          refine ⟨?_, by simpa [guardIssued, guardStep, runStart] using hrest.2⟩
          intro i hi
          simp only [guardIssued, guardStep, runStart, Option.toList_some,
            List.cons_append, List.nil_append, List.mem_cons] at hi
          rcases hi with rfl | hi
          · omega
          · exact hrest.1 i hi
      | cancelOp =>
          have hrest := ih { lastId := 0 } (by show (0 : Int) ≤ 0; omega)
            (fun u hu => hpos u (by simp [hu]))
          refine ⟨?_, by simpa [guardIssued, guardStep, cancelGuard] using hrest.2⟩
          intro i hi
          simp only [guardIssued, guardStep, cancelGuard, Option.toList_none,
            List.nil_append] at hi
          exact hrest.1 i hi

/-- Claim C10: after `cancel()`, `isLatest` rejects every id the guard
ever issued (every issued id is positive when the clock readings are
positive), but accepts the sentinel value `0` installed by `cancel()`
itself. -/
theorem cancel_sentinel (ops : List GuardOp)
    (hpos : ∀ t, GuardOp.next t ∈ ops → 0 < t) :
    (∀ i ∈ (guardIssued { lastId := 0 } ops).1, 0 < i) ∧
    (∀ i ∈ (guardIssued { lastId := 0 } ops).1,
        isLatest (cancelGuard (guardIssued { lastId := 0 } ops).2) i
          = false) ∧
    isLatest (cancelGuard (guardIssued { lastId := 0 } ops).2) 0 = true := by
  have h := guardIssued_pos ops { lastId := 0 }
    (by show (0 : Int) ≤ 0; omega) hpos
  refine ⟨h.1, ?_, by simp [isLatest, cancelGuard]⟩
  intro i hi
  have hipos : 0 < i := h.1 i hi
  simp [isLatest, cancelGuard]
  omega

theorem cancel_sentinel_witness :
    (∀ i ∈ (guardIssued { lastId := 0 }
        [GuardOp.next 5, GuardOp.runOp, GuardOp.cancelOp, GuardOp.runOp]).1,
      0 < i) ∧
    (∀ i ∈ (guardIssued { lastId := 0 }
        [GuardOp.next 5, GuardOp.runOp, GuardOp.cancelOp, GuardOp.runOp]).1,
      isLatest (cancelGuard (guardIssued { lastId := 0 }
        [GuardOp.next 5, GuardOp.runOp, GuardOp.cancelOp,
         GuardOp.runOp]).2) i = false) ∧
    isLatest (cancelGuard (guardIssued { lastId := 0 }
        [GuardOp.next 5, GuardOp.runOp, GuardOp.cancelOp,
         GuardOp.runOp]).2) 0 = true :=
  cancel_sentinel
    [GuardOp.next 5, GuardOp.runOp, GuardOp.cancelOp, GuardOp.runOp]
    (by intro t ht
        simp only [List.mem_cons, List.not_mem_nil, or_false] at ht
        rcases ht with ht | ht | ht | ht <;> first
          | (injection ht with ht; omega)
          | cases ht)
